import Mathlib

/-!
Verification of a FastAPI tutorial repository against its specification.

The repository consists of declarative schema definitions (pydantic models)
and pass-through route handlers.  We embed the handlers and schemas shallowly:

* JSON values are modelled by the inductive type `Json`, with numbers as
  rationals (the handlers only add numbers; no rounding behaviour is claimed).
* A response object (a Python dict built by a handler) is a `List (String × Json)`
  in insertion order; `List.lookup` gives key access.
* Python truthiness on optional values (`if q:` / `if item.tax:`) is embedded
  explicitly: `None` and the empty string / zero are falsy.
* Behaviour that belongs to the framework (routing, parameter validation,
  body parsing) and is configured — not implemented — by this repository is
  modelled from the specification's contract; those definitions carry a
  `Modelled from the spec:` doc comment.
-/

/-- JSON values; numbers are rationals. -/
inductive Json where
  | null
  | str (s : String)
  | num (q : ℚ)
  | bool (b : Bool)
  | arr (elems : List Json)
  | obj (fields : List (String × Json))

/-- The `Item` pydantic model of `part_1.py` / `part_2.py`:
`name: str`, `description: Union[str, None] = None`, `price: float`,
`tax: Union[float, None] = None`. -/
structure Item where
  name : String
  description : Option String
  price : ℚ
  tax : Option ℚ
  deriving DecidableEq

/-- Python truthiness of an optional float: `None` and `0.0` are falsy. -/
def pyTruthyNum : Option ℚ → Bool
  | none => false
  | some t => t ≠ 0

/-- Python truthiness of an optional string: `None` and `""` are falsy. -/
def pyTruthyStr : Option String → Bool
  | none => false
  | some s => s ≠ ""

/-- `item.dict()` for the `Item` model: all four fields, optional ones as
`null` when absent. -/
def Item.dict (item : Item) : List (String × Json) :=
  [ ("name", Json.str item.name)
  , ("description", (item.description.map Json.str).getD Json.null)
  , ("price", Json.num item.price)
  , ("tax", (item.tax.map Json.num).getD Json.null) ]

/-- Handler of `POST /items/` (`create_item`, part_1.py:96): returns
`item.dict()`, and additionally `price_with_tax = price + tax` when
`if item.tax:` is truthy. -/
def create_item (item : Item) : List (String × Json) :=
  let item_dict := Item.dict item
  if pyTruthyNum item.tax then
    item_dict ++ [("price_with_tax", Json.num (item.price + (item.tax.getD 0)))]
  else
    item_dict

/-- `fake_items_db` (part_1.py:64): the fixed 3-element sample list. -/
def fake_items_db : List Json :=
  [ Json.obj [("item_name", Json.str "Foo")]
  , Json.obj [("item_name", Json.str "Bar")]
  , Json.obj [("item_name", Json.str "Baz")] ]

/-- Normalisation of one Python slice index against a list of length `n`:
negative indices count from the end (clamped below at `0`), non-negative
indices are clamped above at `n`. -/
def pySliceIndex (n : ℕ) (i : ℤ) : ℕ :=
  if i < 0 then ((n : ℤ) + i).toNat else min i.toNat n

/-- Python's `xs[start : stop]` for integer `start` and `stop`. -/
def pySlice {α : Type} (xs : List α) (start stop : ℤ) : List α :=
  (xs.drop (pySliceIndex xs.length start)).take
    (pySliceIndex xs.length stop - pySliceIndex xs.length start)

/-- Handler of `GET /items/` (`read_item`, part_1.py:67): returns
`fake_items_db[skip : skip + limit]`. -/
def read_item_list (skip limit : ℤ) : List Json :=
  pySlice fake_items_db skip (skip + limit)

/-- The specification's reading of the response: the sample list "sliced from
index s to index s+l, clamped to the available length of the list", i.e. drop
the first `s` elements and keep at most `l` (indices clamped at the ends of
the list). -/
def listSliceClamped (s l : ℤ) : List Json :=
  (fake_items_db.drop s.toNat).take l.toNat

/-- Handler of `GET /users/me` (`read_user_me`, part_1.py:34). -/
def read_user_me : List (String × Json) :=
  [("user_id", Json.str "the current user")]

/-- Handler of `GET /users/{user_id}` (`read_user`, part_1.py:38). -/
def read_user (user_id : String) : List (String × Json) :=
  [("user_id", Json.str user_id)]

/-- One segment of a declared route pattern. -/
inductive Seg where
  | fixed (s : String)
  | param
  | catchAll

/-- Modelled from the spec: whether a route pattern matches the segments of a
request path.  A fixed segment matches only itself, a parameter segment
matches any single non-empty segment, and a trailing catch-all captures the
remainder of the path. -/
def matchSegs : List Seg → List String → Bool
  | [], [] => true
  | Seg.fixed s :: ps, x :: xs => s == x && matchSegs ps xs
  | Seg.param :: ps, x :: xs => !(x == "") && matchSegs ps xs
  | [Seg.catchAll], _ => true
  | _, _ => false

/-- The GET routes of part_1.py, in declaration order, as (path, pattern)
pairs.  A request path is represented by its segments after the leading
slash. -/
def part1_get_routes : List (String × List Seg) :=
  [ ("/", [Seg.fixed ""])
  , ("/items/{item_id}", [Seg.fixed "items", Seg.param])
  , ("/users/me", [Seg.fixed "users", Seg.fixed "me"])
  , ("/users/{user_id}", [Seg.fixed "users", Seg.param])
  , ("/models/{model_name}", [Seg.fixed "models", Seg.param])
  , ("/files/{file_path:path}", [Seg.fixed "files", Seg.catchAll])
  , ("/items/", [Seg.fixed "items", Seg.fixed ""])
  , ("/item/{item_id}", [Seg.fixed "item", Seg.param])
  , ("/req-items/{item_id}", [Seg.fixed "req-items", Seg.param])
  , ("/item-validation/", [Seg.fixed "item-validation", Seg.fixed ""])
  , ("/item-regex/", [Seg.fixed "item-regex", Seg.fixed ""])
  , ("/item-ellipsis/", [Seg.fixed "item-ellipsis", Seg.fixed ""])
  , ("/item-list/", [Seg.fixed "item-list", Seg.fixed ""])
  , ("/query-metadata/", [Seg.fixed "query-metadata", Seg.fixed ""])
  , ("/alias-param/", [Seg.fixed "alias-param", Seg.fixed ""])
  , ("/deprecate-param/", [Seg.fixed "deprecate-param", Seg.fixed ""])
  , ("/exclude-from-openapi/", [Seg.fixed "exclude-from-openapi", Seg.fixed ""])
  , ("/path-validations/{item_id}", [Seg.fixed "path-validations", Seg.param])
  , ("/path-ge/{item_id}", [Seg.fixed "path-ge", Seg.param])
  , ("/path-gt-le/{item_id}", [Seg.fixed "path-gt-le", Seg.param]) ]

/-- Modelled from the spec: routing tie-break — "when two route patterns could
match the same path, the first one registered in declaration order wins".
Returns the path of the first matching route. -/
def match_route : List (String × List Seg) → List String → Option String
  | [], _ => none
  | (name, p) :: rest, segs =>
      if matchSegs p segs then some name else match_route rest segs

/-- The `ModelName` enumeration of part_1.py:42. -/
inductive ModelName where
  | alexnet
  | resnet
  | lenet
  deriving DecidableEq

/-- The string value of each `ModelName` member. -/
def ModelName.value : ModelName → String
  | ModelName.alexnet => "alexnet"
  | ModelName.resnet => "resnet"
  | ModelName.lenet => "lenet"

/-- Modelled from the spec: enumerated path values — "dispatch fails the
request if the supplied segment is not one of the named members". -/
def parseModelName (s : String) : Option ModelName :=
  if s = "alexnet" then some ModelName.alexnet
  else if s = "resnet" then some ModelName.resnet
  else if s = "lenet" then some ModelName.lenet
  else none

/-- Handler of `GET /models/{model_name}` (`get_model`, part_1.py:48). -/
def get_model (model_name : ModelName) : List (String × Json) :=
  if model_name = ModelName.alexnet then
    [("model_name", Json.str model_name.value), ("message", Json.str "Deep Learning FTW!")]
  else if model_name.value == "lenet" then
    [("model_name", Json.str model_name.value), ("message", Json.str "LeCNN all the images")]
  else
    [("model_name", Json.str model_name.value), ("message", Json.str "Have some residuals")]

/-- Dispatch for `GET /models/{model_name}`: validation of the enumerated path
segment happens before the handler runs. -/
def dispatch_get_model (seg : String) : Except String (List (String × Json)) :=
  match parseModelName seg with
  | some m => Except.ok (get_model m)
  | none => Except.error "path.model_name: not a permitted value"

/-- Modelled from the spec: an anchored literal regex `^lit$` matches exactly
the string `lit`. -/
def regexAnchoredLit (lit s : String) : Bool :=
  s == lit

/-- Modelled from the spec: string query validation — length bounds and regex
pattern must all hold. -/
def validate_string_query (minLen maxLen : ℕ) (lit : String) (s : String) : Bool :=
  decide (minLen ≤ s.length) && decide (s.length ≤ maxLen) && regexAnchoredLit lit s

/-- The constraint declared on `q` of `GET /item-regex/` (part_1.py:130):
`Query(min_length=3, max_length=50, pattern="^fixedquery$")`. -/
def validate_item_regex_q (s : String) : Bool :=
  validate_string_query 3 50 "fixedquery" s

/-- Handler of `GET /item-regex/` (`read_items`, part_1.py:131). -/
def read_items_regex (q : Option String) : List (String × Json) :=
  let results :=
    [("items", Json.arr [ Json.obj [("item_id", Json.str "Foo")]
                        , Json.obj [("item_id", Json.str "Bar")] ])]
  if pyTruthyStr q then results ++ [("q", Json.str (q.getD ""))] else results

/-- Dispatch for `GET /item-regex/`: a supplied `q` is validated before the
handler runs; `q` is optional. -/
def dispatch_item_regex (q : Option String) : Except String (List (String × Json)) :=
  match q with
  | none => Except.ok (read_items_regex none)
  | some s =>
      if validate_item_regex_q s then Except.ok (read_items_regex (some s))
      else Except.error "query.q: constraint violated"

/-- Modelled from the spec: numeric path-parameter validation — a `ge` bound
accepts a value `v` iff `ge ≤ v`. -/
def validate_ge (ge v : ℤ) : Bool :=
  ge ≤ v

/-- Handler of `GET /path-ge/{item_id}` (`read_items`, part_1.py:259). -/
def read_items_path_ge (item_id : ℤ) (q : String) : List (String × Json) :=
  let results := [("item_id", Json.num (item_id : ℚ))]
  if pyTruthyStr (some q) then results ++ [("q", Json.str q)] else results

/-- Dispatch for `GET /path-ge/{item_id}`: the declared `ge=1` bound is
checked before the handler runs. -/
def dispatch_path_ge (item_id : ℤ) (q : String) : Except String (List (String × Json)) :=
  if validate_ge 1 item_id then Except.ok (read_items_path_ge item_id q)
  else Except.error "path.item_id: greater_than_equal violated"

/-- Handler of `GET /path-validations/{item_id}` (`read_items`,
part_1.py:243): `q` is guarded by a truthiness test. -/
def read_items_path_validations (item_id : ℤ) (q : Option String) : List (String × Json) :=
  let results := [("item_id", Json.num (item_id : ℚ))]
  if pyTruthyStr q then results ++ [("q", Json.str (q.getD ""))] else results

/-- Handler of `PUT /items/{item_id}` of part_2.py (`update_item`,
part_2.py:23): optional `q` and optional body `item`, both guarded by
truthiness tests (a pydantic model instance is always truthy). -/
def update_item_p2 (item_id : ℤ) (q : Option String) (item : Option Item) :
    List (String × Json) :=
  let results := [("item_id", Json.num (item_id : ℚ))]
  let results := if pyTruthyStr q then results ++ [("q", Json.str (q.getD ""))] else results
  match item with
  | some it => results ++ [("item", Json.obj (Item.dict it))]
  | none => results

/-- Extract a JSON string. -/
def asString : Json → Option String
  | Json.str s => some s
  | _ => none

/-- Extract a JSON number. -/
def asNum : Json → Option ℚ
  | Json.num q => some q
  | _ => none

/-- Modelled from the spec: parse of an optional schema field — a missing key
or an explicit `null` yields `none`; a present value must parse. -/
def optField {α : Type} (fields : List (String × Json)) (key : String)
    (p : Json → Option α) : Option (Option α) :=
  match fields.lookup key with
  | none => some none
  | some Json.null => some none
  | some v => (p v).map some

/-- Modelled from the spec: parse of a schema field with a default — a missing
key yields the default; a present value must parse. -/
def defaultField {α : Type} (fields : List (String × Json)) (key : String)
    (p : Json → Option α) (dflt : α) : Option α :=
  match fields.lookup key with
  | none => some dflt
  | some v => p v

/-- Modelled from the spec: typed parsing of the `Item` schema from a JSON
body ("explicit typed-parsing functions per declared field type, each
returning a validated value or a structured failure"). -/
def parseItem (j : Json) : Option Item :=
  match j with
  | Json.obj fields => do
      let name ← (fields.lookup "name").bind asString
      let description ← optField fields "description" asString
      let price ← (fields.lookup "price").bind asNum
      let tax ← optField fields "tax" asNum
      pure (Item.mk name description price tax)
  | _ => none

/-- Modelled from the spec: body parsing in "embed" mode — "the body is still
an object keyed by that parameter's name rather than being the schema
directly". -/
def parseEmbedItemBody (j : Json) : Option Item :=
  match j with
  | Json.obj fields => (fields.lookup "item").bind parseItem
  | _ => none

/-- Handler of `PUT /embed-in-body/{item_id}` (`update_item`, part_2.py:63,
identically in fastapi-handson/part_2.py:62). -/
def update_item_embed (item_id : ℤ) (item : Item) : List (String × Json) :=
  [("item_id", Json.num (item_id : ℚ)), ("item", Json.obj (Item.dict item))]

/-- Dispatch for `PUT /embed-in-body/{item_id}`: the body is validated in
embed mode before the handler runs. -/
def dispatch_embed_in_body (item_id : ℤ) (body : Json) :
    Except String (List (String × Json)) :=
  match parseEmbedItemBody body with
  | some item => Except.ok (update_item_embed item_id item)
  | none => Except.error "body.item: field required or invalid"

/-- The `ImageDeep` pydantic model (part_2.py:127); the `HttpUrl` field is
modelled as a string (no claim concerns URL well-formedness). -/
structure ImageDeep where
  url : String
  name : String
  deriving DecidableEq

/-- The `ItemDeep` pydantic model (part_2.py:131): `tags: Set[str] = set()` is
a duplicate-free collection, modelled as a deduplicated list. -/
structure ItemDeep where
  name : String
  description : Option String
  price : ℚ
  tax : Option ℚ
  tags : List String
  images : Option (List ImageDeep)
  deriving DecidableEq

/-- The `Offer` pydantic model (part_2.py:139). -/
structure Offer where
  name : String
  description : Option String
  price : ℚ
  items : List ItemDeep
  deriving DecidableEq

/-- Handler of `POST /offers/` (`create_offer`, part_2.py:146): returns the
validated offer unchanged. -/
def create_offer (offer : Offer) : Offer :=
  offer

/-- Modelled from the spec: parsing of the `ImageDeep` schema. -/
def parseImageDeep (j : Json) : Option ImageDeep :=
  match j with
  | Json.obj fields => do
      let url ← (fields.lookup "url").bind asString
      let name ← (fields.lookup "name").bind asString
      pure (ImageDeep.mk url name)
  | _ => none

/-- Modelled from the spec: a `Set[str]` field accepts a JSON array of strings
and collapses duplicates (pydantic builds a set from the list). -/
def parseTagSet (j : Json) : Option (List String) :=
  match j with
  | Json.arr elems => (elems.mapM asString).map List.dedup
  | _ => none

/-- Modelled from the spec: typed parsing of the `ItemDeep` schema. -/
def parseItemDeep (j : Json) : Option ItemDeep :=
  match j with
  | Json.obj fields => do
      let name ← (fields.lookup "name").bind asString
      let description ← optField fields "description" asString
      let price ← (fields.lookup "price").bind asNum
      let tax ← optField fields "tax" asNum
      let tags ← defaultField fields "tags" parseTagSet []
      let images ← optField fields "images" (fun v =>
        match v with
        | Json.arr elems => elems.mapM parseImageDeep
        | _ => none)
      pure (ItemDeep.mk name description price tax tags images)
  | _ => none

/-- Modelled from the spec: typed parsing of the `Offer` schema. -/
def parseOffer (j : Json) : Option Offer :=
  match j with
  | Json.obj fields => do
      let name ← (fields.lookup "name").bind asString
      let description ← optField fields "description" asString
      let price ← (fields.lookup "price").bind asNum
      let items ← (fields.lookup "items").bind (fun v =>
        match v with
        | Json.arr elems => elems.mapM parseItemDeep
        | _ => none)
      pure (Offer.mk name description price items)
  | _ => none

/-- A concrete `ItemDeep` body whose `tags` array contains a duplicate. -/
def dupTagBody : Json :=
  Json.obj [ ("name", Json.str "Ball")
           , ("price", Json.num 5)
           , ("tags", Json.arr [Json.str "a", Json.str "b", Json.str "a"]) ]

/- ——————————————————————— theorems ——————————————————————— -/

/-- C1 counterexample: the body `{"name": "x", "price": 10, "tax": 0}` has the
`tax` field present, yet the response contains no `price_with_tax` key. -/
theorem create_item_tax_zero_omits_price_with_tax :
    (Item.mk "x" none 10 (some 0)).tax ≠ none ∧
    ((create_item (Item.mk "x" none 10 (some 0))).lookup "price_with_tax" = none) := by
  constructor
  · simp
  · rfl

/-- C1 (amended): for every `Item` body, if `tax` is present with a nonzero
value the response contains `price_with_tax = price + tax`; if `tax` is absent
or zero the key is omitted; and the response always contains the item's
fields. -/
theorem create_item_spec (item : Item) :
    (∀ t, item.tax = some t → t ≠ 0 →
      (create_item item).lookup "price_with_tax" = some (Json.num (item.price + t))) ∧
    ((item.tax = none ∨ item.tax = some 0) →
      (create_item item).lookup "price_with_tax" = none) ∧
    (create_item item).lookup "name" = some (Json.str item.name) ∧
    (create_item item).lookup "price" = some (Json.num item.price) ∧
    (create_item item).lookup "description"
      = some ((item.description.map Json.str).getD Json.null) ∧
    (create_item item).lookup "tax" = some ((item.tax.map Json.num).getD Json.null) := by
  refine ⟨?_, ?_, ?_, ?_, ?_, ?_⟩
  · intro t ht hnz
    simp [create_item, pyTruthyNum, ht, hnz, Item.dict, List.lookup]
  · rintro (h | h) <;> simp [create_item, pyTruthyNum, h, Item.dict, List.lookup]
  · cases hb : pyTruthyNum item.tax <;> simp [create_item, hb, Item.dict, List.lookup]
  · cases hb : pyTruthyNum item.tax <;> simp [create_item, hb, Item.dict, List.lookup]
  · cases hb : pyTruthyNum item.tax <;> simp [create_item, hb, Item.dict, List.lookup]
  · cases hb : pyTruthyNum item.tax <;> simp [create_item, hb, Item.dict, List.lookup]

/-- Witness for C1 (amended) at the body `{"name": "a", "price": 10, "tax": 2}`. -/
theorem create_item_spec_witness :
    (create_item (Item.mk "a" none 10 (some 2))).lookup "price_with_tax"
      = some (Json.num 12) := by
  have h := (create_item_spec (Item.mk "a" none 10 (some 2))).1 2 rfl (by norm_num)
  norm_num at h
  exact h

/-- `xs.take` up to a clamped stop index after a clamped drop agrees with plain
drop-then-take. -/
theorem drop_take_min (xs : List Json) (s l : ℕ) :
    (xs.drop (min s xs.length)).take (min (s + l) xs.length - min s xs.length)
      = (xs.drop s).take l := by
  rcases le_or_lt xs.length s with h | h
  · rw [min_eq_right h, List.drop_length, List.drop_eq_nil_of_le h]
    simp
  · rw [min_eq_left h.le, List.take_eq_take]
    simp only [List.length_drop]
    omega

/-- C2 counterexample: for `skip = -1, limit = 10` the code follows Python's
negative-index slicing and returns only the last sample element, while the
claimed clamped slice from index `-1` (clamped to the start of the list) is
the whole list. -/
theorem read_item_list_negative_skip :
    read_item_list (-1) 10 = [Json.obj [("item_name", Json.str "Baz")]] ∧
    listSliceClamped (-1) 10 = fake_items_db ∧
    read_item_list (-1) 10 ≠ listSliceClamped (-1) 10 := by
  refine ⟨rfl, rfl, fun h => ?_⟩
  have hlen := congrArg List.length h
  simp [read_item_list, pySlice, pySliceIndex, fake_items_db, listSliceClamped] at hlen

/-- C2 (amended): for non-negative `skip = s` and `limit = l`, the response of
`GET /items/` is the sample list sliced from index `s` to index `s + l`,
clamped to the available length. -/
theorem read_item_list_spec (s l : ℤ) (hs : 0 ≤ s) (hl : 0 ≤ l) :
    read_item_list s l = listSliceClamped s l := by
  unfold read_item_list listSliceClamped pySlice pySliceIndex
  rw [if_neg (by omega), if_neg (by omega), Int.toNat_add hs hl]
  exact drop_take_min fake_items_db s.toNat l.toNat

/-- Witness for C2 (amended) at `skip = 1, limit = 10`. -/
theorem read_item_list_spec_witness :
    read_item_list 1 10 = listSliceClamped 1 10 ∧
    read_item_list 1 10
      = [ Json.obj [("item_name", Json.str "Bar")]
        , Json.obj [("item_name", Json.str "Baz")] ] :=
  ⟨read_item_list_spec 1 10 (by norm_num) (by norm_num), rfl⟩

/-- C3: for every JSON body that validates as an `Offer`, the response of
`POST /offers/` is a structure with field values identical to the validated
input — the handler is an identity echo. -/
theorem create_offer_spec (j : Json) (o : Offer) (_h : parseOffer j = some o) :
    (create_offer o).name = o.name ∧
    (create_offer o).description = o.description ∧
    (create_offer o).price = o.price ∧
    (create_offer o).items = o.items :=
  ⟨rfl, rfl, rfl, rfl⟩

/-- Witness for C3 at the body `{"name": "o", "price": 3, "items": []}`. -/
theorem create_offer_spec_witness :
    (create_offer (Offer.mk "o" none 3 [])).name = (Offer.mk "o" none 3 []).name ∧
    (create_offer (Offer.mk "o" none 3 [])).items = (Offer.mk "o" none 3 []).items :=
  ⟨(create_offer_spec
      (Json.obj [("name", Json.str "o"), ("price", Json.num 3), ("items", Json.arr [])])
      (Offer.mk "o" none 3 []) rfl).1,
   (create_offer_spec
      (Json.obj [("name", Json.str "o"), ("price", Json.num 3), ("items", Json.arr [])])
      (Offer.mk "o" none 3 []) rfl).2.2.2⟩

/-- The declared constraint on `q` of `GET /item-regex/` holds iff the length
bounds hold and the string is exactly `"fixedquery"`. -/
theorem validate_item_regex_q_iff (s : String) :
    validate_item_regex_q s = true ↔
      (3 ≤ s.length ∧ s.length ≤ 50 ∧ s = "fixedquery") := by
  simp [validate_item_regex_q, validate_string_query, regexAnchoredLit,
    Bool.and_eq_true, decide_eq_true_iff, beq_iff_eq, and_assoc]

/-- C4: on `GET /item-regex/`, `q = "foo"` (length 3, pattern mismatch) is
rejected with a validation error, `q = "fixedquery"` is accepted and reaches
the handler, and a supplied `q` is accepted iff it satisfies all three
declared constraints. -/
theorem item_regex_q_validation :
    dispatch_item_regex (some "foo") = Except.error "query.q: constraint violated" ∧
    ("foo" : String).length = 3 ∧
    dispatch_item_regex (some "fixedquery")
      = Except.ok
          [ ("items", Json.arr [ Json.obj [("item_id", Json.str "Foo")]
                               , Json.obj [("item_id", Json.str "Bar")] ])
          , ("q", Json.str "fixedquery") ] ∧
    (∀ s, (∃ r, dispatch_item_regex (some s) = Except.ok r) ↔
      (3 ≤ s.length ∧ s.length ≤ 50 ∧ s = "fixedquery")) := by
  refine ⟨rfl, rfl, rfl, fun s => ?_⟩
  rw [← validate_item_regex_q_iff s]
  cases hv : validate_item_regex_q s <;> simp [dispatch_item_regex, hv]

/-- C5: on `GET /path-ge/{item_id}` (declared `ge=1`), `item_id = 0` is
rejected with a validation error before the handler runs, and `item_id = 1`
is accepted and reaches the handler. -/
theorem path_ge_validation :
    dispatch_path_ge 0 "x" = Except.error "path.item_id: greater_than_equal violated" ∧
    dispatch_path_ge 1 "x"
      = Except.ok [("item_id", Json.num 1), ("q", Json.str "x")] := by
  constructor
  · rfl
  · norm_num [dispatch_path_ge, validate_ge, read_items_path_ge, pyTruthyStr]
    decide

/-- C6: a GET request to `/users/me` is dispatched to the fixed-segment route
(declared first) and returns `{"user_id": "the current user"}`; a request to
`/users/X` for any other single segment `X` is dispatched to the
`/users/{user_id}` route and returns `{"user_id": X}`. -/
theorem users_me_routing :
    match_route part1_get_routes ["users", "me"] = some "/users/me" ∧
    read_user_me = [("user_id", Json.str "the current user")] ∧
    (∀ x : String, x ≠ "me" → x ≠ "" →
      match_route part1_get_routes ["users", x] = some "/users/{user_id}") ∧
    (∀ x : String, read_user x = [("user_id", Json.str x)]) := by
  refine ⟨rfl, rfl, fun x hme hne => ?_, fun _ => rfl⟩
  have hme' : ¬ ("me" = x) := fun hc => hme hc.symm
  simp [part1_get_routes, match_route, matchSegs, hme', hne]

/-- Witness for C6 at the segment `"alice"`. -/
theorem users_me_routing_witness :
    match_route part1_get_routes ["users", "alice"] = some "/users/{user_id}" :=
  users_me_routing.2.2.1 "alice" (by decide) (by decide)

/-- C7: dispatch of `GET /models/{model_name}` fails with a validation error
exactly when the supplied segment is not one of `"alexnet"`, `"resnet"`,
`"lenet"`; for each member the handler runs and its response carries that
`model_name`. -/
theorem model_name_enum_spec :
    (∀ s, (parseModelName s).isSome ↔ (s = "alexnet" ∨ s = "resnet" ∨ s = "lenet")) ∧
    (∀ s, (parseModelName s).isSome →
      ∃ m, parseModelName s = some m ∧
        dispatch_get_model s = Except.ok (get_model m) ∧
        (get_model m).lookup "model_name" = some (Json.str m.value)) ∧
    dispatch_get_model "squeezenet"
      = Except.error "path.model_name: not a permitted value" := by
  refine ⟨fun s => ?_, fun s hs => ?_, rfl⟩
  · unfold parseModelName
    split_ifs <;> simp_all
  · rcases hm : parseModelName s with _ | m
    · rw [hm] at hs
      simp at hs
    · refine ⟨m, rfl, ?_, ?_⟩
      · simp [dispatch_get_model, hm]
      · cases m <;> rfl

/-- Witness for C7 at the segment `"lenet"`. -/
theorem model_name_enum_spec_witness :
    ∃ m, parseModelName "lenet" = some m ∧
      dispatch_get_model "lenet" = Except.ok (get_model m) ∧
      (get_model m).lookup "model_name" = some (Json.str m.value) :=
  model_name_enum_spec.2.1 "lenet" (by decide)

/-- C8: the body of `PUT /embed-in-body/{item_id}` is accepted only when it is
a JSON object with key `"item"` whose value validates as an `Item`; an
`Item`-shaped body at the top level is rejected; and on acceptance the
response is `{"item_id": item_id, "item": item}`. -/
theorem embed_in_body_spec :
    (∀ j : Json, (parseEmbedItemBody j).isSome →
      ∃ fields, j = Json.obj fields ∧
        ∃ v, fields.lookup "item" = some v ∧ (parseItem v).isSome) ∧
    (∀ (fields : List (String × Json)) (v : Json) (i : Item),
      fields.lookup "item" = some v → parseItem v = some i →
      parseEmbedItemBody (Json.obj fields) = some i) ∧
    parseEmbedItemBody (Json.obj [("name", Json.str "Foo"), ("price", Json.num 42)])
      = none ∧
    (∀ (item_id : ℤ) (body : Json) (i : Item), parseEmbedItemBody body = some i →
      dispatch_embed_in_body item_id body
        = Except.ok [("item_id", Json.num (item_id : ℚ)), ("item", Json.obj (Item.dict i))]) := by
  refine ⟨fun j hj => ?_, fun fields v i hv hi => ?_, rfl, fun item_id body i hb => ?_⟩
  · cases j <;> simp [parseEmbedItemBody] at hj
    case obj fields =>
      rcases hl : fields.lookup "item" with _ | v
      · rw [hl] at hj
        simp at hj
      · exact ⟨fields, rfl, v, hl, by rw [hl] at hj; simpa using hj⟩
  · simp [parseEmbedItemBody, hv, hi]
  · simp [dispatch_embed_in_body, hb, update_item_embed]

/-- Witness for C8: the body `{"item": {"name": "Foo", "price": 42}}` is
accepted and parses to the corresponding `Item`. -/
theorem embed_in_body_spec_witness :
    parseEmbedItemBody
        (Json.obj [("item", Json.obj [("name", Json.str "Foo"), ("price", Json.num 42)])])
      = some (Item.mk "Foo" none 42 none) :=
  embed_in_body_spec.2.1
    [("item", Json.obj [("name", Json.str "Foo"), ("price", Json.num 42)])]
    (Json.obj [("name", Json.str "Foo"), ("price", Json.num 42)])
    (Item.mk "Foo" none 42 none) rfl rfl

/-- Any value parsed for a `Set[str]` field is duplicate-free. -/
theorem parseTagSet_nodup (j : Json) (l : List String) (h : parseTagSet j = some l) :
    l.Nodup := by
  cases j <;> simp [parseTagSet, Option.map_eq_some'] at h
  case arr elems =>
    obtain ⟨l', -, rfl⟩ := h
    exact List.nodup_dedup l'

/-- Any validated `ItemDeep` has duplicate-free tags. -/
theorem parseItemDeep_tags_nodup (j : Json) (i : ItemDeep)
    (h : parseItemDeep j = some i) : i.tags.Nodup := by
  cases j <;> simp only [parseItemDeep] at h
  iterate 5 exact absurd h (by simp)
  case obj fields =>
  simp only [Option.pure_def, Option.bind_eq_bind, Option.bind_eq_some,
    Option.some_inj] at h
  obtain ⟨name, hname, desc, hdesc, price, hprice, tax, htax, tags, htags,
    images, him, rfl⟩ := h
  rcases hl : fields.lookup "tags" with _ | v
  · unfold defaultField at htags
    rw [hl] at htags
    simp at htags
    subst htags
    exact List.nodup_nil
  · unfold defaultField at htags
    rw [hl] at htags
    exact parseTagSet_nodup v tags htags

/-- Any list of validated `ItemDeep`s consists of items with duplicate-free
tags. -/
theorem mapM_parseItemDeep_nodup (elems : List Json) (items : List ItemDeep)
    (h : elems.mapM parseItemDeep = some items) :
    ∀ it ∈ items, it.tags.Nodup := by
  induction elems generalizing items with
  | nil =>
    simp only [List.mapM_nil, Option.pure_def, Option.some_inj] at h
    subst h
    intro it hit
    exact absurd hit (List.not_mem_nil it)
  | cons x xs ih =>
    simp only [List.mapM_cons, Option.pure_def, Option.bind_eq_bind,
      Option.bind_eq_some, Option.some_inj] at h
    obtain ⟨i, hi, rest, hrest, rfl⟩ := h
    intro it hit
    rcases List.mem_cons.mp hit with rfl | hmem
    · exact parseItemDeep_tags_nodup x it hi
    · exact ih rest hrest it hmem

/-- C9: every validated `Offer` reaching the `POST /offers/` handler has
duplicate-free tags in each of its items; a body whose `tags` array contains a
duplicate is still accepted, each tag appearing exactly once in the validated
(and echoed) value, which therefore differs from the raw input list. -/
theorem offer_tags_dedup_spec :
    (∀ (j : Json) (o : Offer), parseOffer j = some o →
      ∀ it ∈ (create_offer o).items, it.tags.Nodup) ∧
    parseItemDeep dupTagBody = some (ItemDeep.mk "Ball" none 5 none ["b", "a"] none) ∧
    (∀ t, t ∈ (["b", "a"] : List String) ↔ t ∈ (["a", "b", "a"] : List String)) ∧
    (["b", "a"] : List String) ≠ ["a", "b", "a"] := by
  refine ⟨fun j o h it hit => ?_, rfl, fun t => ?_, ?_⟩
  · cases j <;> simp only [parseOffer] at h
    iterate 5 exact absurd h (by simp)
    case obj fields =>
    simp only [Option.pure_def, Option.bind_eq_bind, Option.bind_eq_some,
      Option.some_inj] at h
    obtain ⟨name, hname, desc, hdesc, price, hprice, items, ⟨v, hv, hparse⟩, rfl⟩ := h
    cases v
    case arr elems => exact mapM_parseItemDeep_nodup elems items hparse it hit
    all_goals exact absurd hparse (by simp)
  · simp
    tauto
  · intro hc
    have := congrArg List.length hc
    simp at this

/-- Witness for C9: an offer whose single item carries the duplicated tags
list `["a", "b", "a"]` validates, and the item's echoed tags are
duplicate-free. -/
theorem offer_tags_dedup_spec_witness :
    (ItemDeep.mk "Ball" none 5 none ["b", "a"] none).tags.Nodup :=
  offer_tags_dedup_spec.1
    (Json.obj [ ("name", Json.str "o"), ("price", Json.num 3)
              , ("items", Json.arr [dupTagBody]) ])
    (Offer.mk "o" none 3 [ItemDeep.mk "Ball" none 5 none ["b", "a"] none])
    rfl
    (ItemDeep.mk "Ball" none 5 none ["b", "a"] none)
    (by decide)

/-- C10: supplying the optional query parameter as the empty string produces
the same response as omitting it: the truthiness guard skips the `"q"` key.
Shown for `GET /path-validations/{item_id}` of part_1.py and for
`PUT /items/{item_id}` of part_2.py. -/
theorem empty_query_like_absent :
    (∀ item_id : ℤ,
      read_items_path_validations item_id (some "")
        = read_items_path_validations item_id none ∧
      read_items_path_validations item_id (some "")
        = [("item_id", Json.num (item_id : ℚ))] ∧
      (read_items_path_validations item_id (some "")).lookup "q" = none) ∧
    (∀ (item_id : ℤ) (item : Option Item),
      update_item_p2 item_id (some "") item = update_item_p2 item_id none item) := by
  constructor
  · intro item_id
    refine ⟨?_, ?_, ?_⟩ <;> simp [read_items_path_validations, pyTruthyStr, List.lookup]
  · intro item_id item
    cases item <;> simp [update_item_p2, pyTruthyStr]
